import Mathlib

/-!
Shallow embedding of the trajViewer_rust frame-generation pipeline
(`src/lib.rs` and `src/main.rs`).

Modelling conventions:
* `f64` values and arithmetic are modelled exactly over `ℚ`: every float
  constant in the source is a decimal literal, which `ℚ` represents
  exactly, and the camera update uses only addition and comparison.
* `usize` is modelled as `ℕ`; the loop arithmetic never approaches 2^64
  and Rust would abort rather than wrap on overflow, so no wraparound is
  modelled.
* Fallible effects (CSV load, remote fetch, GIF backend, drawing, frame
  commit) are modelled by an environment of per-operation success flags,
  and the process outcome by an explicit result type that distinguishes
  the `Err`-propagation path from a panic raised by `.expect` (the frame
  commit, line 182) or by the `.unwrap` calls of the remote-fetch path
  (`download_stat`, lines 202, 203, 208).
-/

namespace TrajViewer

/-- Command-line configuration, from `struct Config` in `src/lib.rs`
lines 15-46: `frames` (frame cap, default 0), `secs` (inter-frame delay),
`initial_pitch`, `skip` (stride), and the three string parameters. -/
structure Config where
  frames : ℕ
  secs : ℕ
  initial_pitch : ℚ
  skip : ℕ
  filekey : String
  output_dir : String
  input_dir : String

/-- Effective end frame, from `run` lines 82-86:
`if config.frames > 0 && config.frames < df.height() { config.frames } else { df.height() }`. -/
def end_frame (c : Config) (height : ℕ) : ℕ :=
  if 0 < c.frames ∧ c.frames < height then c.frames else height

/-- Start indices visited by the render loop
`while frame + 4 * config.skip < end_frame` (lines 107 and 185), with
`frame` starting at 0 (line 96) and advancing by `config.skip` each
iteration. The `0 < skip` conjunct only makes the recursion total: with
`skip = 0` the Rust loop would never terminate, and every claim about the
windower assumes `skip > 0`. -/
def windowStarts (skip E frame : ℕ) : List ℕ :=
  if _h : 0 < skip ∧ frame + 4 * skip < E then
    frame :: windowStarts skip E (frame + skip)
  else
    []
termination_by E - frame
decreasing_by omega

/-- Number of loop iterations, i.e. frames appended to the GIF. -/
def numWindows (skip E : ℕ) : ℕ := (windowStarts skip E 0).length

/-- Camera state: the two mutable floats `yaw` and `delta` of `run`
(lines 94-95). -/
structure CamState where
  yaw : ℚ
  delta : ℚ
  deriving DecidableEq

/-- Initial camera state, lines 94-95: `yaw = 1.05`, `delta = -0.002`. -/
def camInit : CamState := ⟨1.05, -0.002⟩

/-- One per-frame camera update, lines 142-147: the `match` sets
`delta = 0.002` when `yaw < 0.52`, `delta = -0.002` when `yaw > 1.05`,
otherwise keeps it; then `yaw += delta`. -/
def camStep (s : CamState) : CamState :=
  let d : ℚ :=
    if s.yaw < 0.52 then 0.002
    else if 1.05 < s.yaw then -0.002
    else s.delta
  ⟨s.yaw + d, d⟩

/-- Camera state at the top of loop iteration `n` (before the `n`-th
update). -/
def camAt : ℕ → CamState
  | 0 => camInit
  | n + 1 => camStep (camAt n)

/-- Inductive invariant of the camera loop: the delta is one of the two
literal steps and the yaw stays in `[0.518, 1.052]`. -/
def CamInv (s : CamState) : Prop :=
  (s.delta = 0.002 ∨ s.delta = -0.002) ∧ 0.518 ≤ s.yaw ∧ s.yaw ≤ 1.052

/-- Side-wall coordinate for Projection-YZ, line 117:
`let wall: f64 = if yaw > 0.0 { -1.0 } else { 25.0 };`. It is computed
before the camera update of the same iteration. -/
def wallOf (yaw : ℚ) : ℚ := if 0 < yaw then -1 else 25

/-- Yaw used in the projection matrix of iteration `n`: the matrix is set
(lines 149-154) after the camera update of that iteration. -/
def yawAtFrame (n : ℕ) : ℚ := (camAt (n + 1)).yaw

/-- Wall value used for Projection-YZ in iteration `n` (computed at line
117, before the update of iteration `n`). -/
def wallAtFrame (n : ℕ) : ℚ := wallOf (camAt n).yaw

/-- One row of the sliced window: columns 0..3 (`x`, `y`, `z`) of the
ndarray (line 109). -/
structure Row3 where
  x : ℚ
  y : ℚ
  z : ℚ

/-- The four point vectors built per frame (lines 113-116). -/
structure ProjOut where
  xyz : List (ℚ × ℚ × ℚ)
  proj_xy : List (ℚ × ℚ × ℚ)
  proj_xz : List (ℚ × ℚ × ℚ)
  proj_yz : List (ℚ × ℚ × ℚ)

/-- The projector loop, lines 119-124: for each row `v` of the window, in
order, push `(v0, v2, v1)` to `xyz`, `(v0, -1, v1)` to `proj_xy`,
`(v0, v2, -1)` to `proj_xz` and `(wall, v2, v1)` to `proj_yz`. -/
def projStep (wall : ℚ) (acc : ProjOut) (v : Row3) : ProjOut :=
  { xyz := acc.xyz ++ [(v.x, v.z, v.y)]
    proj_xy := acc.proj_xy ++ [(v.x, -1, v.y)]
    proj_xz := acc.proj_xz ++ [(v.x, v.z, -1)]
    proj_yz := acc.proj_yz ++ [(wall, v.z, v.y)] }

def projFrame (wall : ℚ) (rows : List Row3) : ProjOut :=
  rows.foldl (projStep wall) ⟨[], [], [], []⟩

/-- Inputs of the per-frame 3-D projection matrix, lines 149-154:
`pb.pitch = config.initial_pitch; pb.yaw = yaw; pb.scale = 0.8`.
The scale is the literal `0.8` in the source. -/
structure ProjParams where
  pitch : ℚ
  yaw : ℚ
  scale : ℚ
  deriving DecidableEq

/-- Projection-matrix inputs as a function of the configuration and the
current yaw (lines 149-154). -/
def frameProjection (c : Config) (yaw : ℚ) : ProjParams :=
  ⟨c.initial_pitch, yaw, 0.8⟩

/-- Raw CSV columns before null-filling: each cell is present or null. -/
structure RawTable where
  x : List (Option ℚ)
  y : List (Option ℚ)
  z : List (Option ℚ)
  t : List (Option ℚ)

/-- Loaded table after the select in `load_csv`. -/
structure Table where
  x : List ℚ
  y : List ℚ
  z : List ℚ
  t : List ℚ

/-- `col(..).fill_null(0f64)`: nulls become `0.0`, present values are
kept, length is unchanged (lines 65-68). -/
def fill_null (c : List (Option ℚ)) : List ℚ := c.map fun v => v.getD 0

/-- Pure core of `load_csv`, lines 64-69: select the four columns
`x`, `y`, `z`, `t`, each with nulls filled by `0.0`. -/
def load_csv (df : RawTable) : Table :=
  ⟨fill_null df.x, fill_null df.y, fill_null df.z, fill_null df.t⟩

/-- Success flags for the fallible operations of `run`, in program order.
The load (line 79) resolves in two ways (`load_csv`, lines 54-62):
`localFileExists` models `df_path.exists()` (line 55); when the file
exists, `localParseOk` models the local CSV parse, whose failures
propagate with `?` (line 57); when it does not, `remoteFetchOk` models
the remote fetch and parse in `download_stat`, whose failures hit
`.unwrap()` (lines 202, 203, 208) and panic. Then `openOk` is the GIF
backend open (line 90), `ndarrayOk` the ndarray conversion (line 99),
and per loop iteration `drawOk` covers the drawing operations (lines
128-180, all propagated with `?`) and `presentOk` the frame commit
`area.present()` (line 182, consumed by `.expect`). Flags for the
per-frame operations are indexed by the window start. -/
structure Env where
  localFileExists : Bool
  localParseOk : Bool
  remoteFetchOk : Bool
  openOk : Bool
  ndarrayOk : Bool
  drawOk : ℕ → Bool
  presentOk : ℕ → Bool

/-- Result of a fallible stage: normal completion, an error propagated
with `?` toward the Result returned by `run`, or a panic (raised by
`area.present().expect(..)` at line 182 or by the `.unwrap()` calls of
`download_stat` at lines 202, 203, 208), which unwinds past `run`. -/
inductive LoopResult where
  | ok : LoopResult
  | err : LoopResult
  | panicked : LoopResult
  deriving DecidableEq

/-- Outcome of the load step (`load_csv`, lines 54-62): with a local file,
a parse failure propagates as an error through `?` (line 57); without
one, a remote fetch or parse failure panics through `.unwrap()`
(lines 202, 203, 208). -/
def loadOutcome (env : Env) : LoopResult :=
  if env.localFileExists then
    if env.localParseOk then .ok else .err
  else
    if env.remoteFetchOk then .ok else .panicked

/-- Outcome of the render loop over a list of window starts: the drawing
operations of an iteration fail via `?` (error), the commit fails via
`.expect` (panic), otherwise continue. -/
def loopOutcome (env : Env) : List ℕ → LoopResult
  | [] => .ok
  | s :: rest =>
    if env.drawOk s then
      if env.presentOk s then loopOutcome env rest else .panicked
    else .err

/-- Outcome of `run` (lines 77-192): the load (line 79, with its two
resolution paths), GIF open `?`, `to_ndarray?`, then the loop; on
success it returns `Ok(())`. A panic from the load unwinds directly. -/
def runOutcome (c : Config) (env : Env) (height : ℕ) : LoopResult :=
  match loadOutcome env with
  | .ok =>
    if env.openOk then
      if env.ndarrayOk then
        loopOutcome env (windowStarts c.skip (end_frame c height) 0)
      else .err
    else .err
  | r => r

/-- Process termination: a normal `exit(code)` or an abort caused by an
uncaught panic (which bypasses the `if let Err` handler in `main`). -/
inductive ProcessExit where
  | code : ℕ → ProcessExit
  | panicAbort : ProcessExit
  deriving DecidableEq

/-- `main` (src/main.rs lines 8-16): `run(config)` returning `Err` prints
a diagnostic and exits 1; returning `Ok` falls through to exit 0; a panic
inside `run` never reaches the `Err` branch and aborts the process. -/
def mainExit (c : Config) (env : Env) (height : ℕ) : ProcessExit :=
  match runOutcome c env height with
  | .ok => .code 0
  | .err => .code 1
  | .panicked => .panicAbort

/-- Unfolding lemma: the loop exits when the guard fails. -/
lemma windowStarts_nil (skip E f : ℕ) (h : ¬ (0 < skip ∧ f + 4 * skip < E)) :
    windowStarts skip E f = [] := by
  rw [windowStarts, dif_neg h]

/-- Unfolding lemma: one loop iteration while the guard holds. -/
lemma windowStarts_cons (skip E f : ℕ) (h : 0 < skip ∧ f + 4 * skip < E) :
    windowStarts skip E f = f :: windowStarts skip E (f + skip) := by
  rw [windowStarts, dif_pos h]

/-- Fuel-indexed count of iterations performed from start index `f`. -/
lemma windowStarts_count_aux (skip E : ℕ) (hs : 0 < skip) :
    ∀ n f, E - f ≤ n →
      ∀ k, (k < (windowStarts skip E f).length ↔ f + k * skip + 4 * skip < E) := by
  intro n
  induction n with
  | zero =>
    intro f hf k
    rw [windowStarts_nil skip E f (by omega)]
    simp only [List.length_nil]
    omega
  | succ n ih =>
    intro f hf k
    by_cases h : f + 4 * skip < E
    · rw [windowStarts_cons skip E f ⟨hs, h⟩]
      simp only [List.length_cons]
      cases k with
      | zero =>
        simp only [Nat.zero_mul]
        omega
      | succ j =>
        have hm : (j + 1) * skip = j * skip + skip := by ring
        have hrec := ih (f + skip) (by omega) j
        omega
    · rw [windowStarts_nil skip E f (by omega)]
      simp only [List.length_nil]
      omega

/-- Iteration `k` of the loop runs iff its guard `k*skip + 4*skip < E` holds. -/
lemma numWindows_count (skip E : ℕ) (hs : 0 < skip) (k : ℕ) :
    k < numWindows skip E ↔ k * skip + 4 * skip < E := by
  have h := windowStarts_count_aux skip E hs E 0 (by omega) k
  simpa [numWindows] using h

/-- Fuel-indexed shape of the visited start indices. -/
lemma windowStarts_shape_aux (skip E : ℕ) (hs : 0 < skip) :
    ∀ n f, E - f ≤ n →
      windowStarts skip E f =
        (List.range (windowStarts skip E f).length).map (fun k => f + k * skip) := by
  intro n
  induction n with
  | zero =>
    intro f hf
    rw [windowStarts_nil skip E f (by omega)]
    simp
  | succ n ih =>
    intro f hf
    by_cases h : f + 4 * skip < E
    · rw [windowStarts_cons skip E f ⟨hs, h⟩]
      simp only [List.length_cons]
      rw [List.range_succ_eq_map]
      simp only [List.map_cons, List.map_map, Nat.zero_mul, Nat.add_zero]
      have hfun : ((fun k => f + k * skip) ∘ Nat.succ) = fun k => f + skip + k * skip := by
        funext k
        have hm : Nat.succ k * skip = k * skip + skip := Nat.succ_mul k skip
        simp only [Function.comp]
        omega
      rw [hfun]
      exact congrArg (List.cons f) (ih (f + skip) (by omega))
    · rw [windowStarts_nil skip E f (by omega)]
      simp

/-- The loop visits exactly the starts `0, skip, 2*skip, ...`. -/
lemma windowStarts_zero_shape (skip E : ℕ) (hs : 0 < skip) :
    windowStarts skip E 0 =
      (List.range (numWindows skip E)).map (fun k => k * skip) := by
  have h := windowStarts_shape_aux skip E hs E 0 (by omega)
  simpa [numWindows] using h

/-- Two counts with the same characteristic predicate agree. -/
lemma count_unique {P : ℕ → Prop} {n m : ℕ}
    (hn : ∀ k, k < n ↔ P k) (hm : ∀ k, k < m ↔ P k) : n = m := by
  rcases Nat.lt_trichotomy n m with h | h | h
  · exact absurd ((hn n).mpr ((hm n).mp h)) (lt_irrefl n)
  · exact h
  · exact absurd ((hm m).mpr ((hn m).mp h)) (lt_irrefl m)

lemma camInv_init : CamInv camInit := by
  refine ⟨Or.inr rfl, ?_, ?_⟩ <;> norm_num [camInit]

lemma camInv_step {s : CamState} (h : CamInv s) : CamInv (camStep s) := by
  obtain ⟨hd, hlo, hhi⟩ := h
  simp only [camStep, CamInv]
  split_ifs with h1 h2
  · exact ⟨Or.inl rfl, by linarith, by linarith⟩
  · exact ⟨Or.inr rfl, by linarith, by linarith⟩
  · push_neg at h1 h2
    rcases hd with hd | hd <;> rw [hd]
    · exact ⟨Or.inl rfl, by linarith, by linarith⟩
    · exact ⟨Or.inr rfl, by linarith, by linarith⟩

lemma camInv_at (n : ℕ) : CamInv (camAt n) := by
  induction n with
  | zero => exact camInv_init
  | succ n ih => exact camInv_step ih

/-- Generalised-accumulator form of the projector fold. -/
lemma projFold (wall : ℚ) (rows : List Row3) :
    ∀ acc : ProjOut,
      rows.foldl (projStep wall) acc =
        ⟨acc.xyz ++ rows.map (fun v => (v.x, v.z, v.y)),
         acc.proj_xy ++ rows.map (fun v => (v.x, -1, v.y)),
         acc.proj_xz ++ rows.map (fun v => (v.x, v.z, -1)),
         acc.proj_yz ++ rows.map (fun v => (wall, v.z, v.y))⟩ := by
  induction rows with
  | nil =>
    intro acc
    simp
  | cons v rows ih =>
    intro acc
    simp only [List.foldl_cons, List.map_cons]
    rw [ih]
    simp [projStep, List.append_assoc]

/-- Concrete windower run used by counterexamples: 200 samples, skip 40. -/
lemma windowStarts_40_200 : windowStarts 40 200 0 = [0] := by
  rw [windowStarts]
  norm_num
  rw [windowStarts]
  norm_num

/-- C2: the effective end-frame is `min F N` when the cap `F` is positive
and `N` otherwise, and the render loop visits exactly the windows
`[k*skip, k*skip + 4*skip)` for `k = 0, 1, 2, ...`, in increasing start
order, precisely while `k*skip + 4*skip` is below the effective end-frame. -/
theorem windower_spec (c : Config) (N : ℕ) (hs : 0 < c.skip) :
    end_frame c N = (if 0 < c.frames then min c.frames N else N) ∧
    (∀ k, k < numWindows c.skip (end_frame c N) ↔
      k * c.skip + 4 * c.skip < end_frame c N) ∧
    windowStarts c.skip (end_frame c N) 0 =
      (List.range (numWindows c.skip (end_frame c N))).map (fun k => k * c.skip) ∧
    List.Pairwise (fun a b => a < b) (windowStarts c.skip (end_frame c N) 0) := by
  refine ⟨?_, fun k => numWindows_count c.skip _ hs k,
    windowStarts_zero_shape c.skip _ hs, ?_⟩
  · unfold end_frame
    split_ifs <;> omega
  · rw [windowStarts_zero_shape c.skip _ hs, List.pairwise_map]
    exact (List.pairwise_lt_range _).imp
      fun hab => Nat.mul_lt_mul_of_lt_of_le hab (Nat.le_refl _) hs

/-- C2 witness at skip 40, table height 200, frame cap 0. -/
theorem windower_spec_witness :
    windowStarts 40 (end_frame ⟨0, 40, 0.5234, 40, "walker", "data", "input"⟩ 200) 0 =
      (List.range (numWindows 40
        (end_frame ⟨0, 40, 0.5234, 40, "walker", "data", "input"⟩ 200))).map
        (fun k => k * 40) :=
  (windower_spec ⟨0, 40, 0.5234, 40, "walker", "data", "input"⟩ 200 (by norm_num)).2.2.1

/-- C1 (amended): for `skip > 0` the number of rendered frames is
`(E - 4*skip - 1) / skip + 1` (integer division), i.e. the ceiling of
`(E - 4*skip) / skip`, when `4*skip < E`, and `0` otherwise, with `E` the
effective end-frame. -/
theorem window_count (c : Config) (N : ℕ) (hs : 0 < c.skip) :
    numWindows c.skip (end_frame c N) =
      if 4 * c.skip < end_frame c N
      then (end_frame c N - 4 * c.skip - 1) / c.skip + 1
      else 0 := by
  set E := end_frame c N
  split_ifs with h4
  · refine count_unique (fun k => numWindows_count c.skip E hs k) (fun k => ?_)
    rw [Nat.lt_succ_iff, Nat.le_div_iff_mul_le hs]
    omega
  · have h0 := numWindows_count c.skip E hs 0
    simp only [Nat.zero_mul] at h0
    omega

/-- C1 witness at skip 40, table height 300, frame cap 0: four frames. -/
theorem window_count_witness :
    numWindows 40 (end_frame ⟨0, 40, 0.5234, 40, "walker", "data", "input"⟩ 300) =
      if 4 * 40 < end_frame ⟨0, 40, 0.5234, 40, "walker", "data", "input"⟩ 300
      then (end_frame ⟨0, 40, 0.5234, 40, "walker", "data", "input"⟩ 300 - 4 * 40 - 1) / 40 + 1
      else 0 :=
  window_count ⟨0, 40, 0.5234, 40, "walker", "data", "input"⟩ 300 (by norm_num)

/-- C1 counterexample: at N = 200, skip = 40, frame cap 0 the loop renders
exactly one frame, while the claimed formula
`floor((E - 4*skip)/skip) + 1` yields 2. -/
theorem window_count_claim_false :
    numWindows 40 (end_frame ⟨0, 40, 0.5234, 40, "walker", "data", "input"⟩ 200) = 1 ∧
    (end_frame ⟨0, 40, 0.5234, 40, "walker", "data", "input"⟩ 200 - 4 * 40) / 40 + 1 = 2 ∧
    numWindows 40 (end_frame ⟨0, 40, 0.5234, 40, "walker", "data", "input"⟩ 200) ≠
      (end_frame ⟨0, 40, 0.5234, 40, "walker", "data", "input"⟩ 200 - 4 * 40) / 40 + 1 := by
  have hE : end_frame ⟨0, 40, 0.5234, 40, "walker", "data", "input"⟩ 200 = 200 := by
    simp [end_frame]
  refine ⟨?_, ?_, ?_⟩ <;> simp [hE, numWindows, windowStarts_40_200]

/-- C3: starting from yaw 1.05 and delta -0.002, the camera yaw satisfies
`0.518 ≤ yaw ≤ 1.052` at every loop iteration, for any run length (the
claimed tolerance-0.002 band around `[0.52, 1.05]` is an invariant of the
per-frame update). -/
theorem yaw_bounded (n : ℕ) :
    0.518 ≤ (camAt n).yaw ∧ (camAt n).yaw ≤ 1.052 :=
  ⟨(camInv_at n).2.1, (camInv_at n).2.2⟩

/-- C4: the per-frame camera step first sets delta to +0.002 if
`yaw < 0.52`, else to -0.002 if `yaw > 1.05`, else keeps the previous
delta, and then adds the delta to the yaw; the initial state is
yaw = 1.05, delta = -0.002. -/
theorem camera_step_spec (s : CamState) :
    camInit = ⟨1.05, -0.002⟩ ∧
    (s.yaw < 0.52 → camStep s = ⟨s.yaw + 0.002, 0.002⟩) ∧
    (¬ s.yaw < 0.52 → 1.05 < s.yaw → camStep s = ⟨s.yaw + -0.002, -0.002⟩) ∧
    (¬ s.yaw < 0.52 → ¬ 1.05 < s.yaw → camStep s = ⟨s.yaw + s.delta, s.delta⟩) := by
  refine ⟨rfl, fun h1 => ?_, fun h1 h2 => ?_, fun h1 h2 => ?_⟩
  · simp [camStep, h1]
  · simp [camStep, h1, h2]
  · simp [camStep, h1, h2]

/-- C4 witness: one concrete step in the no-flip region below 0.52. -/
theorem camera_step_spec_witness :
    camStep ⟨0.5, 0.002⟩ = ⟨0.5 + 0.002, 0.002⟩ :=
  (camera_step_spec ⟨0.5, 0.002⟩).2.1 (by norm_num)

/-- C5: for every window row list, in order, the projector produces
exactly the four point sequences Body `(x, z, y)`, Projection-XY
`(x, -1, y)`, Projection-XZ `(x, z, -1)` and Projection-YZ
`(wall, z, y)`, where the wall is -1 when yaw > 0 and 25 when yaw ≤ 0. -/
theorem projector_spec (yaw : ℚ) (rows : List Row3) :
    (projFrame (wallOf yaw) rows).xyz = rows.map (fun v => (v.x, v.z, v.y)) ∧
    (projFrame (wallOf yaw) rows).proj_xy = rows.map (fun v => (v.x, (-1 : ℚ), v.y)) ∧
    (projFrame (wallOf yaw) rows).proj_xz = rows.map (fun v => (v.x, v.z, (-1 : ℚ))) ∧
    (projFrame (wallOf yaw) rows).proj_yz = rows.map (fun v => (wallOf yaw, v.z, v.y)) ∧
    (0 < yaw → wallOf yaw = -1) ∧
    (yaw ≤ 0 → wallOf yaw = 25) := by
  have h := projFold (wallOf yaw) rows ⟨[], [], [], []⟩
  refine ⟨?_, ?_, ?_, ?_, fun h0 => ?_, fun h0 => ?_⟩
  · simp [projFrame, h]
  · simp [projFrame, h]
  · simp [projFrame, h]
  · simp [projFrame, h]
  · simp [wallOf, h0]
  · simp [wallOf, not_lt.mpr h0]

/-- C5 witness: one row, positive yaw. -/
theorem projector_spec_witness :
    (projFrame (wallOf 1) [⟨2, 3, 4⟩]).xyz = [((2 : ℚ), (4 : ℚ), (3 : ℚ))] ∧
    wallOf 1 = -1 :=
  ⟨((projector_spec 1 [⟨2, 3, 4⟩]).1).trans rfl,
   (projector_spec 1 [⟨2, 3, 4⟩]).2.2.2.2.1 (by norm_num)⟩

/-- C8: after the load select, every column keeps its length (no rows are
dropped), every present cell is kept, and every null cell has become 0. -/
theorem load_fills_nulls (df : RawTable) :
    ((load_csv df).x.length = df.x.length ∧ (load_csv df).y.length = df.y.length ∧
     (load_csv df).z.length = df.z.length ∧ (load_csv df).t.length = df.t.length) ∧
    (∀ (i : ℕ) (v : Option ℚ), df.x[i]? = some v → (load_csv df).x[i]? = some (v.getD 0)) ∧
    (∀ (i : ℕ) (v : Option ℚ), df.y[i]? = some v → (load_csv df).y[i]? = some (v.getD 0)) ∧
    (∀ (i : ℕ) (v : Option ℚ), df.z[i]? = some v → (load_csv df).z[i]? = some (v.getD 0)) ∧
    (∀ (i : ℕ) (v : Option ℚ), df.t[i]? = some v → (load_csv df).t[i]? = some (v.getD 0)) ∧
    (∀ v : Option ℚ, v = none → v.getD 0 = 0) := by
  refine ⟨⟨?_, ?_, ?_, ?_⟩, ?_, ?_, ?_, ?_, fun v hv => by simp [hv]⟩
  · simp [load_csv, fill_null]
  · simp [load_csv, fill_null]
  · simp [load_csv, fill_null]
  · simp [load_csv, fill_null]
  all_goals
    intro i v hv
    simp [load_csv, fill_null, List.getElem?_map, hv]

/-- C8 witness: a one-row table with nulls in x and z. -/
theorem load_fills_nulls_witness :
    (load_csv ⟨[none], [some 5], [none], [some 7]⟩).x[0]? =
      some ((none : Option ℚ).getD 0) :=
  (load_fills_nulls ⟨[none], [some 5], [none], [some 7]⟩).2.1 0 none rfl

/-- C9 (amended): the pitch is constant for the run and taken from the
configuration (`initial_pitch`), the scale is the constant 0.8 hardcoded
in the render loop (the configuration has no scale parameter), and each
frame the projection matrix is recomputed from (pitch, current yaw,
scale) with the same pitch and scale. -/
theorem pitch_scale_constant (c : Config) (n m : ℕ) :
    frameProjection c (yawAtFrame n) = ⟨c.initial_pitch, yawAtFrame n, 0.8⟩ ∧
    (frameProjection c (yawAtFrame n)).pitch = (frameProjection c (yawAtFrame m)).pitch ∧
    (frameProjection c (yawAtFrame n)).scale = (frameProjection c (yawAtFrame m)).scale :=
  ⟨rfl, rfl, rfl⟩

/-- C9 counterexample: the scale input of the projection matrix is the
literal 0.8 for any configuration — two configurations differing in every
numeric parameter give the same scale, and 0.8 equals none of the
numeric parameters of the configuration (in particular the default
configuration), so the scale is not taken from configuration. -/
theorem scale_not_from_config :
    (frameProjection ⟨0, 40, 0.5234, 40, "walker", "data", "input"⟩ 1.05).scale =
      (frameProjection ⟨7, 9, 0.2617, 3, "w", "d", "i"⟩ 1.05).scale ∧
    (frameProjection ⟨0, 40, 0.5234, 40, "walker", "data", "input"⟩ 1.05).scale = 0.8 ∧
    (0.8 : ℚ) ≠ (⟨0, 40, 0.5234, 40, "walker", "data", "input"⟩ : Config).initial_pitch ∧
    (0.8 : ℚ) ≠ ((⟨0, 40, 0.5234, 40, "walker", "data", "input"⟩ : Config).frames : ℚ) ∧
    (0.8 : ℚ) ≠ ((⟨0, 40, 0.5234, 40, "walker", "data", "input"⟩ : Config).secs : ℚ) ∧
    (0.8 : ℚ) ≠ ((⟨0, 40, 0.5234, 40, "walker", "data", "input"⟩ : Config).skip : ℚ) := by
  refine ⟨rfl, rfl, ?_, ?_, ?_, ?_⟩ <;> norm_num [frameProjection]

/-- C10: the yaw is strictly positive whenever the YZ wall constant is
computed, so the wall is always -1 and the 25 branch is unreachable. -/
theorem wall_never_swings (n : ℕ) :
    0 < (camAt n).yaw ∧ wallAtFrame n = -1 ∧ wallAtFrame n ≠ 25 := by
  have h := (camInv_at n).2.1
  have hy : 0 < (camAt n).yaw := lt_of_lt_of_le (by norm_num) h
  refine ⟨hy, ?_, ?_⟩
  · simp [wallAtFrame, wallOf, hy]
  · simp only [wallAtFrame, wallOf, if_pos hy]
    norm_num

/-- C7: whenever `4*skip` is at least the effective end-frame, the loop
body never runs: zero frames are produced, and with the pre-loop steps
succeeding the run still completes successfully with exit code 0. -/
theorem zero_windows (c : Config) (height : ℕ) (env : Env)
    (hl : loadOutcome env = LoopResult.ok) (ho : env.openOk = true)
    (hn : env.ndarrayOk = true)
    (hE : end_frame c height ≤ 4 * c.skip) :
    numWindows c.skip (end_frame c height) = 0 ∧
    mainExit c env height = ProcessExit.code 0 := by
  have hw : windowStarts c.skip (end_frame c height) 0 = [] :=
    windowStarts_nil _ _ _ (by omega)
  constructor
  · simp [numWindows, hw]
  · simp [mainExit, runOutcome, hl, ho, hn, hw, loopOutcome]

/-- C7 witness: 100 samples, skip 40, cap 0: `4*40 ≥ 100`, zero frames,
exit 0. -/
theorem zero_windows_witness :
    numWindows 40 (end_frame ⟨0, 40, 0.5234, 40, "walker", "data", "input"⟩ 100) = 0 ∧
    mainExit ⟨0, 40, 0.5234, 40, "walker", "data", "input"⟩
      ⟨true, true, true, true, true, fun _ => true, fun _ => true⟩ 100 =
      ProcessExit.code 0 :=
  zero_windows ⟨0, 40, 0.5234, 40, "walker", "data", "input"⟩ 100
    ⟨true, true, true, true, true, fun _ => true, fun _ => true⟩ rfl rfl rfl
    (by norm_num [end_frame])

end TrajViewer
